import Mathlib

/-!
Shallow embedding of the tile-grid model and worker plumbing of the
`landscapes` repository (tile_grid module and the map-layer output
component), with theorems checking the natural-language specification
against it.

Modelling conventions:
* JavaScript numbers are modelled by `JsNum`: finite values as rationals
  (32-bit float rounding is abstracted away; it does not affect any of the
  properties below), plus `NaN` and the two infinities, which the numeric
  grid stores and `getMinMax` must skip.
* `Uint8Array` buffers are `List (Fin 256)`; writing a JS number to such a
  buffer truncates and reduces mod 2^8 (JS `ToUint8`), modelled by the
  `Nat`-cast into `Fin 256`.
* Exceptions (`throw new TypeError(...)`) are modelled with `Except String`.
  The model is pure, so a call that returns `.error` leaves the caller's
  grid unchanged by construction, matching the source where every throw
  happens before any buffer write.
* Mutable fields (`minMax` cache, `labels`) are explicit fields threaded
  through the operations; `undefined` fields are `Option.none`.
-/

namespace Landscapes

/-- Decidable equality for `Except`, so that concrete runs of the
fallible operations below can be checked by `decide`. -/
instance {ε α : Type _} [DecidableEq ε] [DecidableEq α] : DecidableEq (Except ε α) := fun
  | .error e, .error f => decidable_of_iff (e = f) (by simp)
  | .error _, .ok _ => isFalse (by simp)
  | .ok _, .error _ => isFalse (by simp)
  | .ok a, .ok b => decidable_of_iff (a = b) (by simp)

/-- A JavaScript number: a finite value (as an exact rational), NaN, or an
infinity. -/
inductive JsNum where
  | fin (q : ℚ)
  | nan
  | inf
  | negInf
deriving DecidableEq

/-- JS `isFinite`. -/
def JsNum.isFinite : JsNum → Bool
  | .fin _ => true
  | _ => false

/-- JS `Math.min` on two numbers (NaN propagates). -/
def jsMin : JsNum → JsNum → JsNum
  | .nan, _ => .nan
  | _, .nan => .nan
  | .negInf, _ => .negInf
  | _, .negInf => .negInf
  | .inf, b => b
  | a, .inf => a
  | .fin a, .fin b => .fin (min a b)

/-- JS `Math.max` on two numbers (NaN propagates). -/
def jsMax : JsNum → JsNum → JsNum
  | .nan, _ => .nan
  | _, .nan => .nan
  | .inf, _ => .inf
  | _, .inf => .inf
  | .negInf, b => b
  | a, .negInf => a
  | .fin a, .fin b => .fin (max a b)

/-- Shared geometry of every tile grid (the fields of the abstract
`TileGrid` class): zoom level and the extent origin/size in tile space. -/
structure TileGrid where
  zoom : Nat
  x : Nat
  y : Nat
  width : Nat
  height : Nat
deriving DecidableEq

/-- `validateAxisExtent` from the source: origin within `[0, 2^zoom)` and a
positive length fitting inside the axis.  (`Number.isInteger` and `>= 0`
are built into the use of `Nat`.) -/
def validateAxisExtent (zoom start length : Nat) : Prop :=
  start < 2 ^ zoom ∧ 0 < length ∧ length ≤ 2 ^ zoom - start

instance (zoom start length : Nat) : Decidable (validateAxisExtent zoom start length) := by
  unfold validateAxisExtent; infer_instance

/-- The constructor-time validation of the abstract `TileGrid` class:
`validateZoom` (trivial over `Nat`) plus both axis extents. -/
def validGeom (t : TileGrid) : Prop :=
  validateAxisExtent t.zoom t.x t.width ∧ validateAxisExtent t.zoom t.y t.height

instance (t : TileGrid) : Decidable (validGeom t) := by
  unfold validGeom; infer_instance

/-- The bounds test inside `toIndex`: `(x, y)` lies inside the grid's
extent `[x, x+width) × [y, y+height)`. -/
def inExtent (t : TileGrid) (x y : Int) : Prop :=
  (t.x : Int) ≤ x ∧ x < (t.x : Int) + t.width ∧
  (t.y : Int) ≤ y ∧ y < (t.y : Int) + t.height

instance (t : TileGrid) (x y : Int) : Decidable (inExtent t x y) := by
  unfold inExtent; infer_instance

/-- The buffer index `(x - grid.x) * grid.height + (y - grid.y)` computed
by `toIndex` (non-negative whenever `inExtent` holds). -/
def natIndex (t : TileGrid) (x y : Int) : Nat :=
  ((x - t.x) * t.height + (y - t.y)).toNat

/-- `toIndex` from the source: the buffer index when `(x, y)` is inside
the extent, `undefined` (here `none`) otherwise. -/
def toIndex (t : TileGrid) (x y : Int) : Option Nat :=
  if inExtent t x y then some (natIndex t x y) else none

/-- `tileGridStats` (the record returned by `getStats`). -/
structure tileGridStats where
  min : JsNum
  max : JsNum
  type : String
  labels : Option (List (Nat × String)) := none
deriving DecidableEq

/- ## BooleanTileGrid -/

/-- `BooleanTileGrid`: geometry plus a `Uint8Array` cell buffer holding
0/1 bytes.  (The cosmetic `name` field is not modelled.) -/
structure BooleanTileGrid extends TileGrid where
  data : List (Fin 256)
deriving DecidableEq

namespace BooleanTileGrid

/-- The `BooleanTileGrid` constructor: validates the geometry, then either
adopts a given `Uint8Array` or fills a fresh `width*height` buffer with
the initial boolean. -/
def make (zoom x y width height : Nat) (initialValue : Sum Bool (List (Fin 256))) :
    Except String BooleanTileGrid :=
  if validGeom ⟨zoom, x, y, width, height⟩ then
    match initialValue with
    | .inr arr => .ok ⟨⟨zoom, x, y, width, height⟩, arr⟩
    | .inl b => .ok ⟨⟨zoom, x, y, width, height⟩, List.replicate (width * height) (if b then 1 else 0)⟩
  else .error "TypeError: invalid grid geometry"

/-- `BooleanTileGrid.get`: rejects a coarser query zoom, rescales the
coordinate by `scale = 2^(zoom - nativeZoom)` with floor division, then reads the
buffer (`false` outside the extent; a cell reads `true` iff its byte is 1). -/
def get (g : BooleanTileGrid) (x y : Int) (zoom : Nat := g.zoom) : Except String Bool :=
  if zoom < g.zoom then .error "invalid zoom level"
  else
    match toIndex g.toTileGrid (x.fdiv (2 ^ (zoom - g.zoom) : Int))
        (y.fdiv (2 ^ (zoom - g.zoom) : Int)) with
    | none => .ok false
    | some i => .ok (g.data.getD i 0 == 1)

/-- `BooleanTileGrid.set`: writes 1/0 at the native-zoom coordinate, or
throws when the coordinate is outside the extent. -/
def set (g : BooleanTileGrid) (x y : Int) (value : Bool) : Except String BooleanTileGrid :=
  match toIndex g.toTileGrid x y with
  | none => .error "coordinate out of range"
  | some i => .ok { g with data := g.data.set i (if value then 1 else 0) }

/-- `BooleanTileGrid.getStats`: fixed `(0, 1)`. -/
def getStats (_g : BooleanTileGrid) : tileGridStats :=
  { min := .fin 0, max := .fin 1, type := "BooleanTileGrid" }

end BooleanTileGrid

/- ## NumericTileGrid -/

/-- `NumericTileGrid`: geometry plus a `Float32Array` buffer and the
lazily computed `minMax` cache (`null` when invalidated). -/
structure NumericTileGrid extends TileGrid where
  data : List JsNum
  minMax : Option (JsNum × JsNum)
deriving DecidableEq

/-- The fold inside `NumericTileGrid.getMinMax`: starting from
`(Infinity, -Infinity)`, fold every finite cell into the running min/max,
skipping non-finite cells. -/
def computeMinMax (data : List JsNum) : JsNum × JsNum :=
  data.foldl (fun mm v => if v.isFinite then (jsMin v mm.1, jsMax v mm.2) else mm)
    (.inf, .negInf)

namespace NumericTileGrid

/-- The `NumericTileGrid` constructor: validates the geometry, adopts a
given `Float32Array` or fills with the initial value, and starts with an
empty min/max cache. -/
def make (zoom x y width height : Nat) (initialValue : Sum JsNum (List JsNum)) :
    Except String NumericTileGrid :=
  if validGeom ⟨zoom, x, y, width, height⟩ then
    match initialValue with
    | .inr arr => .ok ⟨⟨zoom, x, y, width, height⟩, arr, none⟩
    | .inl v => .ok ⟨⟨zoom, x, y, width, height⟩, List.replicate (width * height) v, none⟩
  else .error "TypeError: invalid grid geometry"

/-- `NumericTileGrid.get`: like the boolean variant with default `0`. -/
def get (g : NumericTileGrid) (x y : Int) (zoom : Nat := g.zoom) : Except String JsNum :=
  if zoom < g.zoom then .error "invalid zoom level"
  else
    match toIndex g.toTileGrid (x.fdiv (2 ^ (zoom - g.zoom) : Int))
        (y.fdiv (2 ^ (zoom - g.zoom) : Int)) with
    | none => .ok (.fin 0)
    | some i => .ok (g.data.getD i (.fin 0))

/-- `NumericTileGrid.set`: writes the value at the native-zoom coordinate
and invalidates the min/max cache, or throws when out of range. -/
def set (g : NumericTileGrid) (x y : Int) (value : JsNum) : Except String NumericTileGrid :=
  match toIndex g.toTileGrid x y with
  | none => .error "coordinate out of range"
  | some i => .ok { g with data := g.data.set i value, minMax := none }

/-- `NumericTileGrid.getMinMax`: returns the cache when present, else the
min/max over finite cells (the source also stores the freshly computed
pair back into the cache; only the returned value matters below). -/
def getMinMax (g : NumericTileGrid) : JsNum × JsNum :=
  match g.minMax with
  | some mm => mm
  | none => computeMinMax g.data

/-- `NumericTileGrid.getStats`. -/
def getStats (g : NumericTileGrid) : tileGridStats :=
  { min := g.getMinMax.1, max := g.getMinMax.2, type := "NumericTileGrid" }

end NumericTileGrid

/- ## CategoricalTileGrid -/

/-- `CategoricalTileGrid`: geometry plus a byte buffer of category codes
(255 = "no data"), the `minMax` field (written only by `setLabels`, so
`undefined` until then), and the code-to-label dictionary, which stays
`undefined` when the constructor receives no labels map. -/
structure CategoricalTileGrid extends TileGrid where
  data : List (Fin 256)
  minMax : Option (Nat × Nat)
  labels : Option (List (Nat × String))
deriving DecidableEq

/-- `Map.get` on the label dictionary (insertion-ordered association
list with unique keys). -/
def mapGet (k : Nat) : List (Nat × String) → Option String
  | [] => none
  | p :: ps => if p.1 = k then some p.2 else mapGet k ps

namespace CategoricalTileGrid

/-- `CategoricalTileGrid.setLabels`: stores the dictionary and sets
`minMax` to `[0, labels.size]`. -/
def setLabels (g : CategoricalTileGrid) (labels : List (Nat × String)) : CategoricalTileGrid :=
  { g with labels := some labels, minMax := some (0, labels.length) }

/-- The `CategoricalTileGrid` constructor: validates the geometry, adopts
a given byte buffer or fills with the 255 sentinel, and applies
`setLabels` only when a labels map is supplied. -/
def make (zoom x y width height : Nat) (initialValue : Option (List (Fin 256)))
    (labels : Option (List (Nat × String))) : Except String CategoricalTileGrid :=
  if validGeom ⟨zoom, x, y, width, height⟩ then
    let base : CategoricalTileGrid :=
      ⟨⟨zoom, x, y, width, height⟩,
       (match initialValue with
        | some arr => arr
        | none => List.replicate (width * height) 255),
       none, none⟩
    .ok (match labels with
         | some l => base.setLabels l
         | none => base)
  else .error "TypeError: invalid grid geometry"

/-- `CategoricalTileGrid.get`: like the other variants with default `255`. -/
def get (g : CategoricalTileGrid) (x y : Int) (zoom : Nat := g.zoom) : Except String Nat :=
  if zoom < g.zoom then .error "invalid zoom level"
  else
    match toIndex g.toTileGrid (x.fdiv (2 ^ (zoom - g.zoom) : Int))
        (y.fdiv (2 ^ (zoom - g.zoom) : Int)) with
    | none => .ok 255
    | some i => .ok (g.data.getD i 255).val

/-- `CategoricalTileGrid.set`: writes the value (reduced mod 2^8 by the
`Uint8Array` store) at the native-zoom coordinate, or throws when out of
range. -/
def set (g : CategoricalTileGrid) (x y : Int) (value : Nat) : Except String CategoricalTileGrid :=
  match toIndex g.toTileGrid x y with
  | none => .error "coordinate out of range"
  | some i => .ok { g with data := g.data.set i (value : Fin 256) }

/-- `CategoricalTileGrid.getMinMax`: `[0, 0]` when the field is still
`undefined`/`null` (no labels given), else the stored pair. -/
def getMinMax (g : CategoricalTileGrid) : Nat × Nat :=
  match g.minMax with
  | some mm => mm
  | none => (0, 0)

/-- `CategoricalTileGrid.getAsLabel` as written in the source: when the
dictionary is non-empty it returns `undefined`, and only when it is empty
does it look the cell's code up (in that empty dictionary).  Accessing
`labels.size` throws when `labels` is still `undefined`.  The `zoom`
parameter of the source is dead: the call passes `zoom = this.zoom`,
overwriting any argument, so the lookup always reads at native zoom. -/
def getAsLabel (g : CategoricalTileGrid) (x y : Int) : Except String (Option String) :=
  match g.labels with
  | none => .error "TypeError: labels is undefined"
  | some l =>
    if l.length > 0 then .ok none
    else do
      let code ← g.get x y g.zoom
      .ok (mapGet code l)

/-- The coordinates visited by the two nested `for` loops of
`applyCategoryFromBooleanGrid`, in source order: `i` from `x` to
`x+width-1` outer, `j` from `y` to `y+height-1` inner. -/
def extentCoords (t : TileGrid) : List (Int × Int) :=
  (List.range t.width).flatMap fun di =>
    (List.range t.height).map fun dj => ((t.x + di : Nat), (t.y + dj : Nat))

/-- The body of the `applyCategoryFromBooleanGrid` loop: read the boolean
grid at its own native zoom and, where it is `true`, set this grid's cell
to `key`.  Every visited coordinate is inside this grid's extent, so the
inner `set` can never throw; the `.error` fallback keeps the state
unchanged and is dead code. -/
def applyStep (boolGrid : BooleanTileGrid) (key : Nat) (c : CategoricalTileGrid)
    (p : Int × Int) : CategoricalTileGrid :=
  match boolGrid.get p.1 p.2 boolGrid.zoom with
  | .ok true =>
    match c.set p.1 p.2 key with
    | .ok c' => c'
    | .error _ => c
  | _ => c

/-- `CategoricalTileGrid.applyCategoryFromBooleanGrid`: iterate over this
grid's own extent (`i` outer, `j` inner) and set the cell to `key`
wherever the boolean grid reads `true`. -/
def applyCategoryFromBooleanGrid (g : CategoricalTileGrid) (boolGrid : BooleanTileGrid)
    (key : Nat) : CategoricalTileGrid :=
  (extentCoords g.toTileGrid).foldl (applyStep boolGrid key) g

/-- `CategoricalTileGrid.getStats`: throws while `labels` is undefined
(the `Array.from(this.labels, ...)` access), else min/max plus the label
table as an ordered list of pairs. -/
def getStats (g : CategoricalTileGrid) : Except String tileGridStats :=
  match g.labels with
  | none => .error "TypeError: labels is undefined"
  | some l =>
    .ok { min := .fin g.getMinMax.1, max := .fin g.getMinMax.2,
          type := "CategoricalTileGrid", labels := some l }

end CategoricalTileGrid

/- ## JSON wire format -/

/-- The `data` field of `TileGridJSON`: `Uint8Array | Float32Array`. -/
inductive GridData where
  | uint8 (values : List (Fin 256))
  | float32 (values : List JsNum)
deriving DecidableEq

/-- JS `ToUint8` applied by `Uint8Array.from(..., value => value)`:
truncate toward zero, then reduce mod 2^8 (non-finite values store 0). -/
def toUint8 : JsNum → Fin 256
  | .fin q => (((q.num.tdiv q.den).emod 256).toNat : Fin 256)
  | _ => 0

/-- Read a JSON `data` array as bytes (`Uint8Array.from` coercion; on an
array that is already a `Uint8Array` this is the identity). -/
def GridData.asBytes : GridData → List (Fin 256)
  | .uint8 l => l
  | .float32 l => l.map toUint8

/-- Read a JSON `data` array as floats (`Float32Array.from` coercion; a
byte widens to the same finite number). -/
def GridData.asFloats : GridData → List JsNum
  | .uint8 l => l.map fun b => .fin b.val
  | .float32 l => l

/-- Insert a labelled code into a key-sorted association list. -/
def insertByKey (p : Nat × String) : List (Nat × String) → List (Nat × String)
  | [] => [p]
  | q :: qs => if p.1 ≤ q.1 then p :: q :: qs else q :: insertByKey p qs

/-- `Object.fromEntries` on a `Map` with integer-like keys followed by
`Object.entries` hands the pairs back in ascending key order (JS object
integer-key ordering), not in the map's insertion order; modelled as a
key-sort of the association list. -/
def sortByKey (l : List (Nat × String)) : List (Nat × String) :=
  l.foldr insertByKey []

/-- `TileGridJSON`: the persisted/wire record.  The `type` tag is an open
string so that decoding an unrecognized tag is statable. -/
structure TileGridJSON where
  type : String
  zoom : Nat
  x : Nat
  y : Nat
  width : Nat
  height : Nat
  data : GridData
  labels : Option (List (Nat × String)) := none
deriving DecidableEq

/-- `BooleanTileGrid.toJSON`. -/
def BooleanTileGrid.toJSON (g : BooleanTileGrid) : TileGridJSON :=
  { type := "BooleanTileGrid", zoom := g.zoom, x := g.x, y := g.y,
    width := g.width, height := g.height, data := .uint8 g.data }

/-- `NumericTileGrid.toJSON`. -/
def NumericTileGrid.toJSON (g : NumericTileGrid) : TileGridJSON :=
  { type := "NumericTileGrid", zoom := g.zoom, x := g.x, y := g.y,
    width := g.width, height := g.height, data := .float32 g.data }

/-- `CategoricalTileGrid.toJSON`: throws while `labels` is undefined (the
`Object.fromEntries(this.labels)` access); the labels object carries the
dictionary with its keys in ascending order (see `sortByKey`). -/
def CategoricalTileGrid.toJSON (g : CategoricalTileGrid) : Except String TileGridJSON :=
  match g.labels with
  | none => .error "TypeError: labels is undefined"
  | some l =>
    .ok { type := "CategoricalTileGrid", zoom := g.zoom, x := g.x, y := g.y,
          width := g.width, height := g.height, data := .uint8 g.data,
          labels := some (sortByKey l) }

/-- The sum of the three concrete grid classes. -/
inductive TileGridValue where
  | bool (g : BooleanTileGrid)
  | numeric (g : NumericTileGrid)
  | categorical (g : CategoricalTileGrid)
deriving DecidableEq

/-- `fromJSON`: dispatch on the `type` tag, rebuild the concrete variant
through its constructor (for categorical, parsing the labels object back
into a map), and throw on an unrecognized tag. -/
def fromJSON (json : TileGridJSON) : Except String TileGridValue :=
  match json.type with
  | "BooleanTileGrid" =>
    (BooleanTileGrid.make json.zoom json.x json.y json.width json.height
      (.inr json.data.asBytes)).map .bool
  | "NumericTileGrid" =>
    (NumericTileGrid.make json.zoom json.x json.y json.width json.height
      (.inr json.data.asFloats)).map .numeric
  | "CategoricalTileGrid" =>
    (CategoricalTileGrid.make json.zoom json.x json.y json.width json.height
      (some json.data.asBytes) (some (json.labels.getD []))).map .categorical
  | _ => .error "Invalid tile grid JSON"

/- ## Worker-boundary serializer (`registerSerializer`) -/

/-- A value crossing the worker boundary after `serialize`: either one of
the two tagged wrappers (`__type: "$$BooleanTileGrid" / "$$NumericTileGrid"`,
spreading the instance's own fields), or whatever the library's default
handler produced — a plain structural copy without class identity. -/
inductive WorkerMessage where
  | taggedBool (zoom x y width height : Nat) (data : List (Fin 256))
  | taggedNumeric (zoom x y width height : Nat) (data : List JsNum)
      (minMax : Option (JsNum × JsNum))
  | defaultSerialized (v : TileGridValue)
deriving DecidableEq

/-- What `deserialize` hands back: a reconstructed concrete grid instance,
or the default handler's plain structural copy (not an instance of any
grid class). -/
inductive DeserializeResult where
  | grid (v : TileGridValue)
  | plain (v : TileGridValue)
deriving DecidableEq

/-- Whether the receiving side got a concrete grid instance back. -/
def DeserializeResult.isConcreteGrid : DeserializeResult → Bool
  | .grid _ => true
  | .plain _ => false

/-- The registered `serialize` hook: tags boolean and numeric grids; any
other value — including a `CategoricalTileGrid` — falls through to the
default handler, which makes a plain structural copy. -/
def serialize : TileGridValue → WorkerMessage
  | .bool g => .taggedBool g.zoom g.x g.y g.width g.height g.data
  | .numeric g => .taggedNumeric g.zoom g.x g.y g.width g.height g.data g.minMax
  | .categorical g => .defaultSerialized (.categorical g)

/-- The registered `deserialize` hook: rebuilds a tagged boolean/numeric
grid through its constructor; anything else goes to the default handler
and stays a plain value. -/
def deserialize : WorkerMessage → Except String DeserializeResult
  | .taggedBool zoom x y width height data =>
    (BooleanTileGrid.make zoom x y width height (.inr data)).map (.grid ∘ .bool)
  | .taggedNumeric zoom x y width height data _minMax =>
    (NumericTileGrid.make zoom x y width height (.inr data)).map (.grid ∘ .numeric)
  | .defaultSerialized v => .ok (.plain v)

/- ## Map-layer output sink (`MapLayerComponent.worker`) -/

/-- The mutable per-node editor state the worker touches: the optional
error annotation in `editorNode.meta`. -/
structure NodeMeta where
  errorMessage : Option String := none
deriving DecidableEq

/-- `MapLayerComponent.worker`: given the result of looking the node up in
the editor (`none` when absent — then nothing happens), the node id and
the resolved values on the `in` socket, returns the updated node meta and
the list of `save(nodeId, value)` callback invocations. -/
def mapLayerWorker (editorNode : Option NodeMeta) (nodeId : Nat)
    (inputsIn : List TileGridValue) : Option NodeMeta × List (Nat × TileGridValue) :=
  match editorNode with
  | none => (none, [])
  | some meta =>
    match inputsIn with
    | [] => (some { meta with errorMessage := some "No input" }, [])
    | v :: _ => (some { meta with errorMessage := none }, [(nodeId, v)])

/- ## Supporting lemmas -/

/-- Writing a cell and reading it back at the same index. -/
theorem getD_set_self {α : Type _} (l : List α) (i : Nat) (a d : α) (h : i < l.length) :
    (l.set i a).getD i d = a := by
  rw [List.getD_eq_getElem _ _ (by simpa using h)]
  exact List.getElem_set_self _

/-- Writing a cell does not disturb any other index. -/
theorem getD_set_ne {α : Type _} (l : List α) {i j : Nat} (hij : i ≠ j) (a d : α) :
    (l.set i a).getD j d = l.getD j d := by
  by_cases hj : j < l.length
  · rw [List.getD_eq_getElem _ _ (by simpa using hj), List.getD_eq_getElem _ _ hj]
    exact List.getElem_set_ne hij _
  · rw [List.getD_eq_default _ _ (by simpa using not_lt.1 hj),
      List.getD_eq_default _ _ (not_lt.1 hj)]

/-- A native-zoom `get` on a boolean grid is a plain `toIndex` lookup. -/
theorem BooleanTileGrid.bool_get_native (g : BooleanTileGrid) (x y : Int) :
    g.get x y g.zoom =
      (match toIndex g.toTileGrid x y with
       | none => .ok false
       | some i => .ok (g.data.getD i 0 == 1)) := by
  unfold get
  rw [if_neg (lt_irrefl _)]
  simp only [Nat.sub_self, pow_zero, Int.fdiv_one]

/-- A native-zoom `get` on a numeric grid is a plain `toIndex` lookup. -/
theorem NumericTileGrid.numeric_get_native (g : NumericTileGrid) (x y : Int) :
    g.get x y g.zoom =
      (match toIndex g.toTileGrid x y with
       | none => .ok (.fin 0)
       | some i => .ok (g.data.getD i (.fin 0))) := by
  unfold get
  rw [if_neg (lt_irrefl _)]
  simp only [Nat.sub_self, pow_zero, Int.fdiv_one]

/-- A native-zoom `get` on a categorical grid is a plain `toIndex` lookup. -/
theorem CategoricalTileGrid.cat_get_native (g : CategoricalTileGrid) (x y : Int) :
    g.get x y g.zoom =
      (match toIndex g.toTileGrid x y with
       | none => .ok 255
       | some i => .ok (g.data.getD i 255).val) := by
  unfold get
  rw [if_neg (lt_irrefl _)]
  simp only [Nat.sub_self, pow_zero, Int.fdiv_one]

/-- A native-zoom `get` on a categorical grid always succeeds. -/
theorem CategoricalTileGrid.get_native_ok (g : CategoricalTileGrid) (x y : Int) :
    ∃ c, g.get x y g.zoom = .ok c := by
  rw [g.cat_get_native x y]
  cases toIndex g.toTileGrid x y <;> exact ⟨_, rfl⟩

/-- Once the dictionary is initialized, `getAsLabel` no longer throws. -/
theorem CategoricalTileGrid.getAsLabel_isOk_of_labels (g : CategoricalTileGrid)
    (l : List (Nat × String)) (hl : g.labels = some l) (x y : Int) :
    (g.getAsLabel x y).isOk = true := by
  unfold getAsLabel
  obtain ⟨c, hc⟩ := g.get_native_ok x y
  rw [hl]
  by_cases hlen : l.length > 0
  · simp [hlen, Except.isOk, Except.toBool]
  · simp only [hlen, if_false, hc]
    rfl

/- ## Claim C1 -/

/-- C1: the claim says `getAsLabel` returns the label mapped to the cell's
code when present in the dictionary.  The code inverts the condition
(`labels.size > 0 ? undefined : labels.get(...)`): on a grid whose single
cell holds code 1 with dictionary `{1 ↦ "one"}`, `getAsLabel(0, 0)`
returns `undefined` even though the dictionary contains the code and maps
it to `"one"`.  This evaluates the code at that failing input. -/
theorem categorical_getAsLabel_ignores_labels_bug :
    (do
      let g ← CategoricalTileGrid.make 0 0 0 1 1 (some [1]) (some [(1, "one")])
      g.getAsLabel 0 0 : Except String (Option String)) = .ok none ∧
    (do
      let g ← CategoricalTileGrid.make 0 0 0 1 1 (some [1]) (some [(1, "one")])
      g.get 0 0 g.zoom : Except String Nat) = .ok 1 ∧
    mapGet 1 [(1, "one")] = some "one" := by decide

/- ## Claim C5 -/

/-- C5 counterexample: on the boolean grid constructed with
`zoom=3, x=1, y=1, width=2, height=2`, after `set(1,1,true)`, the claim
says `get(1,1, queryZoom=4)` resolves to the same cell and returns `true`.
It does not: `scale = 2` rescales `(1,1)` to native `(0,0)` via
`floor(1/2)`, which is outside the extent, so the call returns `false`. -/
theorem example_grid_zoom4_counterexample :
    (do
      let g ← BooleanTileGrid.make 3 1 1 2 2 (.inl false)
      let g ← g.set 1 1 true
      g.get 1 1 4 : Except String Bool) = .ok false ∧
    ¬ ((do
      let g ← BooleanTileGrid.make 3 1 1 2 2 (.inl false)
      let g ← g.set 1 1 true
      g.get 1 1 4 : Except String Bool) = .ok true) := by decide

/-- C5 amended: on that grid, `get(0,0)` returns the default `false`
(out of range), `get(1,1)` returns `true` after `set(1,1,true)`, while at
`queryZoom=4` the coordinate `(1,1)` rescales by `floor(1/2)` to native
`(0,0)`, out of range, returning `false`; the same cell is addressed at
`queryZoom=4` by `(2,2)`, which rescales via `floor(2/2)` to `(1,1)` and
returns `true`. -/
theorem example_grid_queries :
    (do
      let g ← BooleanTileGrid.make 3 1 1 2 2 (.inl false)
      let g ← g.set 1 1 true
      let a ← g.get 0 0
      let b ← g.get 1 1
      let c ← g.get 1 1 4
      let d ← g.get 2 2 4
      pure (a, b, c, d) : Except String (Bool × Bool × Bool × Bool)) =
    .ok (false, true, false, true) := by decide

/- ## Claim C9 -/

/-- C9 counterexample: the error annotation written by the map-layer
worker when the input socket list is empty is `"No input"` (capital N),
not `"no input"` as the claim states. -/
theorem mapLayer_error_message_case_counterexample :
    (mapLayerWorker (some ⟨none⟩) 1 []).1 = some ⟨some "No input"⟩ ∧
    ¬ (mapLayerWorker (some ⟨none⟩) 1 []).1 = some ⟨some "no input"⟩ := by decide

/-- C9 amended: for the map-layer sink's transform (on a node found in the
editor): with an empty resolved input list it sets the error annotation to
`"No input"` and invokes no save callback; with a non-empty list it clears
the annotation and invokes `save(nodeId, firstValue)` exactly once with
the first resolved value. -/
theorem mapLayer_worker_behavior :
    ∀ (meta : NodeMeta) (nodeId : Nat) (v : TileGridValue) (rest : List TileGridValue),
      mapLayerWorker (some meta) nodeId [] =
        (some { meta with errorMessage := some "No input" }, []) ∧
      mapLayerWorker (some meta) nodeId (v :: rest) =
        (some { meta with errorMessage := none }, [(nodeId, v)]) :=
  fun _ _ _ _ => ⟨rfl, rfl⟩

/- ## Claim C2 -/

/-- C2 counterexample: a constructible categorical grid whose trip through
the registered worker-boundary serializer does not come back as a
concrete grid: `serialize` has no case for `CategoricalTileGrid`, so it
falls through to the default handler and the receiving side gets a plain
structural copy, not a grid of the same concrete variant. -/
theorem serializer_categorical_not_tagged :
    CategoricalTileGrid.make 0 0 0 1 1 (some [7]) (some [(7, "woodland")]) =
      .ok ⟨⟨0, 0, 0, 1, 1⟩, [7], some (0, 1), some [(7, "woodland")]⟩ ∧
    serialize (.categorical ⟨⟨0, 0, 0, 1, 1⟩, [7], some (0, 1), some [(7, "woodland")]⟩) =
      .defaultSerialized (.categorical ⟨⟨0, 0, 0, 1, 1⟩, [7], some (0, 1), some [(7, "woodland")]⟩) ∧
    deserialize (serialize (.categorical ⟨⟨0, 0, 0, 1, 1⟩, [7], some (0, 1), some [(7, "woodland")]⟩)) =
      .ok (.plain (.categorical ⟨⟨0, 0, 0, 1, 1⟩, [7], some (0, 1), some [(7, "woodland")]⟩)) ∧
    (DeserializeResult.plain (.categorical ⟨⟨0, 0, 0, 1, 1⟩, [7], some (0, 1), some [(7, "woodland")]⟩)).isConcreteGrid = false := by
  decide

/-- C2 amended: the worker-boundary round trip preserves type identity
for the boolean and numeric variants — the deserializer rebuilds the same
concrete variant with equal zoom, x, y, width, height and cell data (the
numeric min/max cache restarts empty) — while a categorical grid is not
handled by the registered serializer: it falls through to the default
handler as a plain structural copy, so no concrete grid comes back. -/
theorem serializer_roundtrip_bool_numeric :
    (∀ g : BooleanTileGrid, validGeom g.toTileGrid →
      deserialize (serialize (.bool g)) = .ok (.grid (.bool g))) ∧
    (∀ g : NumericTileGrid, validGeom g.toTileGrid →
      deserialize (serialize (.numeric g)) =
        .ok (.grid (.numeric { g with minMax := none }))) ∧
    (∀ g : CategoricalTileGrid,
      serialize (.categorical g) = .defaultSerialized (.categorical g) ∧
      deserialize (serialize (.categorical g)) = .ok (.plain (.categorical g))) := by
  refine ⟨fun g hv => ?_, fun g hv => ?_, fun g => ⟨rfl, rfl⟩⟩
  · have hv' : validGeom (⟨g.zoom, g.x, g.y, g.width, g.height⟩ : TileGrid) := hv
    simp [serialize, deserialize, BooleanTileGrid.make, hv', Except.map]
  · have hv' : validGeom (⟨g.zoom, g.x, g.y, g.width, g.height⟩ : TileGrid) := hv
    simp [serialize, deserialize, NumericTileGrid.make, hv', Except.map]

/-- C2 witness: the amended round trip at concrete boolean and numeric
grids, plus the categorical fall-through at a concrete grid. -/
theorem serializer_roundtrip_witness :
    deserialize (serialize (.bool ⟨⟨1, 0, 0, 2, 1⟩, [1, 0]⟩)) =
      .ok (.grid (.bool ⟨⟨1, 0, 0, 2, 1⟩, [1, 0]⟩)) ∧
    deserialize (serialize (.numeric ⟨⟨1, 0, 0, 2, 1⟩, [.fin 3, .nan], some (.fin 3, .fin 3)⟩)) =
      .ok (.grid (.numeric ⟨⟨1, 0, 0, 2, 1⟩, [.fin 3, .nan], none⟩)) ∧
    serialize (.categorical ⟨⟨0, 0, 0, 1, 1⟩, [255], none, none⟩) =
      .defaultSerialized (.categorical ⟨⟨0, 0, 0, 1, 1⟩, [255], none, none⟩) := by
  refine ⟨serializer_roundtrip_bool_numeric.1 _ (by decide),
    serializer_roundtrip_bool_numeric.2.1 _ (by decide),
    (serializer_roundtrip_bool_numeric.2.2 _).1⟩

/- ## Claim C10 -/

/-- C10: a `CategoricalTileGrid` constructed without a labels map leaves
`labels` uninitialized; `getMinMax()` then returns `(0, 0)` (the
`undefined` min/max field reads as null), while `getStats()`, `toJSON()`
and `getAsLabel()` all throw on the undefined dictionary — and all three
succeed once `setLabels` has been called. -/
theorem unlabelled_categorical_partiality :
    ∀ (zoom x y w h : Nat) (g : CategoricalTileGrid),
      CategoricalTileGrid.make zoom x y w h none none = .ok g →
      g.labels = none ∧
      g.getMinMax = (0, 0) ∧
      g.getStats.isOk = false ∧
      g.toJSON.isOk = false ∧
      (∀ px py : Int, (g.getAsLabel px py).isOk = false) ∧
      (∀ l : List (Nat × String),
        (g.setLabels l).getStats.isOk = true ∧
        (g.setLabels l).toJSON.isOk = true ∧
        ∀ px py : Int, ((g.setLabels l).getAsLabel px py).isOk = true) := by
  intro zoom x y w h g hmk
  unfold CategoricalTileGrid.make at hmk
  split at hmk
  · cases hmk
    refine ⟨rfl, rfl, rfl, rfl, fun px py => rfl, fun l =>
      ⟨rfl, rfl, fun px py => CategoricalTileGrid.getAsLabel_isOk_of_labels _ l rfl px py⟩⟩
  · cases hmk

/-- C10 witness: the unlabelled-constructor behavior at a concrete 1×1
grid, including success of all three operations after `setLabels`. -/
theorem unlabelled_categorical_partiality_witness :
    CategoricalTileGrid.make 0 0 0 1 1 none none =
      .ok ⟨⟨0, 0, 0, 1, 1⟩, [255], none, none⟩ ∧
    (⟨⟨0, 0, 0, 1, 1⟩, [255], none, none⟩ : CategoricalTileGrid).labels = none ∧
    CategoricalTileGrid.getMinMax ⟨⟨0, 0, 0, 1, 1⟩, [255], none, none⟩ = (0, 0) ∧
    (CategoricalTileGrid.getStats ⟨⟨0, 0, 0, 1, 1⟩, [255], none, none⟩).isOk = false ∧
    (CategoricalTileGrid.toJSON ⟨⟨0, 0, 0, 1, 1⟩, [255], none, none⟩).isOk = false ∧
    (CategoricalTileGrid.getAsLabel ⟨⟨0, 0, 0, 1, 1⟩, [255], none, none⟩ 0 0).isOk = false ∧
    ((CategoricalTileGrid.setLabels ⟨⟨0, 0, 0, 1, 1⟩, [255], none, none⟩ [(1, "a")]).getStats).isOk = true ∧
    ((CategoricalTileGrid.setLabels ⟨⟨0, 0, 0, 1, 1⟩, [255], none, none⟩ [(1, "a")]).toJSON).isOk = true ∧
    ((CategoricalTileGrid.setLabels ⟨⟨0, 0, 0, 1, 1⟩, [255], none, none⟩ [(1, "a")]).getAsLabel 0 0).isOk = true := by
  have hmk : CategoricalTileGrid.make 0 0 0 1 1 none none =
      .ok ⟨⟨0, 0, 0, 1, 1⟩, [255], none, none⟩ := by decide
  have h := unlabelled_categorical_partiality 0 0 0 1 1 _ hmk
  exact ⟨hmk, h.1, h.2.1, h.2.2.1, h.2.2.2.1, h.2.2.2.2.1 0 0,
    (h.2.2.2.2.2 [(1, "a")]).1, (h.2.2.2.2.2 [(1, "a")]).2.1,
    (h.2.2.2.2.2 [(1, "a")]).2.2 0 0⟩

/- ## Claim C3 -/

/-- Inserting into the key-sorted list permutes consing. -/
theorem insertByKey_perm (p : Nat × String) (l : List (Nat × String)) :
    (insertByKey p l).Perm (p :: l) := by
  induction l with
  | nil => exact List.Perm.refl _
  | cons q qs ih =>
    unfold insertByKey
    split
    · exact List.Perm.refl _
    · exact (ih.cons q).trans (List.Perm.swap p q qs)

/-- The key-sort of the label list is a permutation of it: the JSON
labels object holds exactly the dictionary's entries. -/
theorem sortByKey_perm (l : List (Nat × String)) : (sortByKey l).Perm l := by
  induction l with
  | nil => exact List.Perm.refl _
  | cons p ps ih => exact (insertByKey_perm p _).trans (ih.cons p)

/-- C3: `fromJSON ∘ toJSON` is lossless: a boolean grid decodes back to
itself; a numeric grid decodes back with the same geometry and cell data
(the min/max cache restarts empty); a categorical grid with an
initialized dictionary decodes back with the same geometry, cell data,
and the same code-to-label dictionary (the entries return as a
permutation, in ascending key order — JSON object key ordering); and
decoding any object whose type tag is not one of the three variant names
throws the decode error. -/
theorem fromJSON_toJSON_roundtrip :
    (∀ g : BooleanTileGrid, validGeom g.toTileGrid →
      fromJSON g.toJSON = .ok (.bool g)) ∧
    (∀ g : NumericTileGrid, validGeom g.toTileGrid →
      fromJSON g.toJSON = .ok (.numeric { g with minMax := none })) ∧
    (∀ (g : CategoricalTileGrid) (l : List (Nat × String)),
      validGeom g.toTileGrid → g.labels = some l →
      g.toJSON.bind fromJSON =
        .ok (.categorical ⟨g.toTileGrid, g.data,
          some (0, (sortByKey l).length), some (sortByKey l)⟩) ∧
      (sortByKey l).Perm l) ∧
    (∀ j : TileGridJSON, j.type ≠ "BooleanTileGrid" → j.type ≠ "NumericTileGrid" →
      j.type ≠ "CategoricalTileGrid" → fromJSON j = .error "Invalid tile grid JSON") := by
  refine ⟨fun g hv => ?_, fun g hv => ?_, fun g l hv hl => ⟨?_, sortByKey_perm l⟩,
    fun j h1 h2 h3 => ?_⟩
  · have hv' : validGeom (⟨g.zoom, g.x, g.y, g.width, g.height⟩ : TileGrid) := hv
    simp [fromJSON, BooleanTileGrid.toJSON, BooleanTileGrid.make, GridData.asBytes, hv',
      Except.map]
  · have hv' : validGeom (⟨g.zoom, g.x, g.y, g.width, g.height⟩ : TileGrid) := hv
    simp [fromJSON, NumericTileGrid.toJSON, NumericTileGrid.make, GridData.asFloats, hv',
      Except.map]
  · have hv' : validGeom (⟨g.zoom, g.x, g.y, g.width, g.height⟩ : TileGrid) := hv
    rw [CategoricalTileGrid.toJSON, hl]
    simp [fromJSON, CategoricalTileGrid.make, GridData.asBytes, hv', Except.map,
      Except.bind, CategoricalTileGrid.setLabels]
  · unfold fromJSON
    split
    all_goals simp_all

/-- C3 witness: the round trip at one concrete grid of each variant (the
categorical one with a deliberately unsorted dictionary) and a decode
failure at a concrete unknown tag. -/
theorem fromJSON_toJSON_roundtrip_witness :
    fromJSON (BooleanTileGrid.toJSON ⟨⟨1, 0, 0, 2, 1⟩, [1, 0]⟩) =
      .ok (.bool ⟨⟨1, 0, 0, 2, 1⟩, [1, 0]⟩) ∧
    fromJSON (NumericTileGrid.toJSON ⟨⟨1, 0, 0, 2, 1⟩, [.fin 3, .nan], some (.fin 3, .fin 3)⟩) =
      .ok (.numeric ⟨⟨1, 0, 0, 2, 1⟩, [.fin 3, .nan], none⟩) ∧
    (CategoricalTileGrid.toJSON
        ⟨⟨0, 0, 0, 1, 1⟩, [7], some (0, 2), some [(5, "b"), (2, "a")]⟩).bind fromJSON =
      .ok (.categorical ⟨⟨0, 0, 0, 1, 1⟩, [7], some (0, 2), some [(2, "a"), (5, "b")]⟩) ∧
    (sortByKey [(5, "b"), (2, "a")]).Perm [(5, "b"), (2, "a")] ∧
    fromJSON ⟨"SomeOtherType", 0, 0, 0, 1, 1, .uint8 [0], none⟩ =
      .error "Invalid tile grid JSON" := by
  have h3 := fromJSON_toJSON_roundtrip.2.2.1
    ⟨⟨0, 0, 0, 1, 1⟩, [7], some (0, 2), some [(5, "b"), (2, "a")]⟩
    [(5, "b"), (2, "a")] (by decide) rfl
  exact ⟨fromJSON_toJSON_roundtrip.1 _ (by decide),
    fromJSON_toJSON_roundtrip.2.1 _ (by decide),
    h3.1, h3.2,
    fromJSON_toJSON_roundtrip.2.2.2 _ (by decide) (by decide) (by decide)⟩

/- ## Claim C4 -/

/-- C4: for `queryZoom ≥ zoom`, `get(x, y, queryZoom)` maps `(x, y)` to
native coordinates `(floor(x / 2^(queryZoom−zoom)), floor(y / 2^(queryZoom−zoom)))`,
returns the stored cell value when that native coordinate lies in
`[x, x+width) × [y, y+height)` and the variant default (`false` / `0` /
`255`) otherwise; for `queryZoom < zoom`, `get` throws — for each of the
three variants. -/
theorem get_rescale_semantics :
    (∀ (g : BooleanTileGrid) (x y : Int) (qz : Nat),
      (g.zoom ≤ qz →
        (inExtent g.toTileGrid (x.fdiv (2 ^ (qz - g.zoom) : Int))
            (y.fdiv (2 ^ (qz - g.zoom) : Int)) →
          g.get x y qz = .ok (g.data.getD (natIndex g.toTileGrid
            (x.fdiv (2 ^ (qz - g.zoom) : Int)) (y.fdiv (2 ^ (qz - g.zoom) : Int))) 0 == 1)) ∧
        (¬ inExtent g.toTileGrid (x.fdiv (2 ^ (qz - g.zoom) : Int))
            (y.fdiv (2 ^ (qz - g.zoom) : Int)) →
          g.get x y qz = .ok false)) ∧
      (qz < g.zoom → g.get x y qz = .error "invalid zoom level")) ∧
    (∀ (g : NumericTileGrid) (x y : Int) (qz : Nat),
      (g.zoom ≤ qz →
        (inExtent g.toTileGrid (x.fdiv (2 ^ (qz - g.zoom) : Int))
            (y.fdiv (2 ^ (qz - g.zoom) : Int)) →
          g.get x y qz = .ok (g.data.getD (natIndex g.toTileGrid
            (x.fdiv (2 ^ (qz - g.zoom) : Int)) (y.fdiv (2 ^ (qz - g.zoom) : Int))) (.fin 0))) ∧
        (¬ inExtent g.toTileGrid (x.fdiv (2 ^ (qz - g.zoom) : Int))
            (y.fdiv (2 ^ (qz - g.zoom) : Int)) →
          g.get x y qz = .ok (.fin 0))) ∧
      (qz < g.zoom → g.get x y qz = .error "invalid zoom level")) ∧
    (∀ (g : CategoricalTileGrid) (x y : Int) (qz : Nat),
      (g.zoom ≤ qz →
        (inExtent g.toTileGrid (x.fdiv (2 ^ (qz - g.zoom) : Int))
            (y.fdiv (2 ^ (qz - g.zoom) : Int)) →
          g.get x y qz = .ok (g.data.getD (natIndex g.toTileGrid
            (x.fdiv (2 ^ (qz - g.zoom) : Int)) (y.fdiv (2 ^ (qz - g.zoom) : Int))) 255).val) ∧
        (¬ inExtent g.toTileGrid (x.fdiv (2 ^ (qz - g.zoom) : Int))
            (y.fdiv (2 ^ (qz - g.zoom) : Int)) →
          g.get x y qz = .ok 255)) ∧
      (qz < g.zoom → g.get x y qz = .error "invalid zoom level")) := by
  refine ⟨fun g x y qz => ⟨fun hz => ⟨fun hin => ?_, fun hnin => ?_⟩, fun hlt => ?_⟩,
    fun g x y qz => ⟨fun hz => ⟨fun hin => ?_, fun hnin => ?_⟩, fun hlt => ?_⟩,
    fun g x y qz => ⟨fun hz => ⟨fun hin => ?_, fun hnin => ?_⟩, fun hlt => ?_⟩⟩
  · unfold BooleanTileGrid.get toIndex
    rw [if_neg (not_lt.2 hz), if_pos hin]
  · unfold BooleanTileGrid.get toIndex
    rw [if_neg (not_lt.2 hz), if_neg hnin]
  · unfold BooleanTileGrid.get
    rw [if_pos hlt]
  · unfold NumericTileGrid.get toIndex
    rw [if_neg (not_lt.2 hz), if_pos hin]
  · unfold NumericTileGrid.get toIndex
    rw [if_neg (not_lt.2 hz), if_neg hnin]
  · unfold NumericTileGrid.get
    rw [if_pos hlt]
  · unfold CategoricalTileGrid.get toIndex
    rw [if_neg (not_lt.2 hz), if_pos hin]
  · unfold CategoricalTileGrid.get toIndex
    rw [if_neg (not_lt.2 hz), if_neg hnin]
  · unfold CategoricalTileGrid.get
    rw [if_pos hlt]

/-- C4 witness: each case of the rescaling semantics at a concrete grid:
an in-extent read after rescaling, an out-of-extent default, and a
coarser-zoom rejection, for each variant. -/
theorem get_rescale_semantics_witness :
    BooleanTileGrid.get ⟨⟨3, 1, 1, 2, 2⟩, [0, 1, 0, 0]⟩ 2 4 4 = .ok true ∧
    BooleanTileGrid.get ⟨⟨3, 1, 1, 2, 2⟩, [0, 1, 0, 0]⟩ 0 0 3 = .ok false ∧
    BooleanTileGrid.get ⟨⟨3, 1, 1, 2, 2⟩, [0, 1, 0, 0]⟩ 0 0 2 = .error "invalid zoom level" ∧
    NumericTileGrid.get ⟨⟨1, 0, 0, 2, 1⟩, [.fin 3, .fin 7], none⟩ 1 0 1 = .ok (.fin 7) ∧
    NumericTileGrid.get ⟨⟨1, 0, 0, 2, 1⟩, [.fin 3, .fin 7], none⟩ 5 0 1 = .ok (.fin 0) ∧
    NumericTileGrid.get ⟨⟨1, 0, 0, 2, 1⟩, [.fin 3, .fin 7], none⟩ 0 0 0 = .error "invalid zoom level" ∧
    CategoricalTileGrid.get ⟨⟨1, 0, 0, 1, 1⟩, [9], none, none⟩ 0 0 1 = .ok 9 ∧
    CategoricalTileGrid.get ⟨⟨1, 0, 0, 1, 1⟩, [9], none, none⟩ 0 1 1 = .ok 255 ∧
    CategoricalTileGrid.get ⟨⟨1, 0, 0, 1, 1⟩, [9], none, none⟩ 0 0 0 = .error "invalid zoom level" := by
  refine ⟨((get_rescale_semantics.1 _ 2 4 4).1 (by decide) |>.1 (by decide)).trans (by decide),
    ((get_rescale_semantics.1 _ 0 0 3).1 (by decide) |>.2 (by decide)),
    ((get_rescale_semantics.1 _ 0 0 2).2 (by decide)),
    ((get_rescale_semantics.2.1 _ 1 0 1).1 (by decide) |>.1 (by decide)).trans (by decide),
    ((get_rescale_semantics.2.1 _ 5 0 1).1 (by decide) |>.2 (by decide)),
    ((get_rescale_semantics.2.1 _ 0 0 0).2 (by decide)),
    ((get_rescale_semantics.2.2 _ 0 0 1).1 (by decide) |>.1 (by decide)).trans (by decide),
    ((get_rescale_semantics.2.2 _ 0 1 1).1 (by decide) |>.2 (by decide)),
    ((get_rescale_semantics.2.2 _ 0 0 0).2 (by decide))⟩

/- ## Claim C7 -/

/-- Inside the extent, the buffer index splits into non-negative row and
column offsets. -/
theorem natIndex_eq (t : TileGrid) {x y : Int} (h : inExtent t x y) :
    natIndex t x y = (x - t.x).toNat * t.height + (y - t.y).toNat := by
  obtain ⟨h1, _, h3, _⟩ := h
  unfold natIndex
  have hx : x - (t.x : Int) = ((x - (t.x : Int)).toNat : Int) := by omega
  have hy : y - (t.y : Int) = ((y - (t.y : Int)).toNat : Int) := by omega
  conv_lhs => rw [hx, hy]
  rw [show (((x - (t.x : Int)).toNat : Int) * (t.height : Int) + ((y - (t.y : Int)).toNat : Int))
      = (((x - (t.x : Int)).toNat * t.height + (y - (t.y : Int)).toNat : Nat) : Int) by
    push_cast; ring]
  exact Int.toNat_natCast _

/-- An in-extent coordinate indexes inside a `width*height` buffer. -/
theorem natIndex_lt (t : TileGrid) {x y : Int} (h : inExtent t x y) :
    natIndex t x y < t.width * t.height := by
  obtain ⟨h1, h2, h3, h4⟩ := h
  rw [natIndex_eq t ⟨h1, h2, h3, h4⟩]
  have hA : (x - (t.x : Int)).toNat < t.width := by omega
  have hB : (y - (t.y : Int)).toNat < t.height := by omega
  calc (x - (t.x : Int)).toNat * t.height + (y - (t.y : Int)).toNat
      < (x - (t.x : Int)).toNat * t.height + t.height := by omega
    _ = ((x - (t.x : Int)).toNat + 1) * t.height := by ring
    _ ≤ t.width * t.height := Nat.mul_le_mul_right _ (by omega)

/-- Distinct in-extent coordinates get distinct buffer indices. -/
theorem natIndex_inj (t : TileGrid) {x y x' y' : Int} (h : inExtent t x y)
    (h' : inExtent t x' y') (heq : natIndex t x y = natIndex t x' y') :
    x = x' ∧ y = y' := by
  obtain ⟨h1, h2, h3, h4⟩ := h
  obtain ⟨h1', h2', h3', h4'⟩ := h'
  rw [natIndex_eq t ⟨h1, h2, h3, h4⟩, natIndex_eq t ⟨h1', h2', h3', h4'⟩] at heq
  have hB : (y - (t.y : Int)).toNat < t.height := by omega
  have hB' : (y' - (t.y : Int)).toNat < t.height := by omega
  have hpos : 0 < t.height := by omega
  have ediv : ∀ A B : Nat, B < t.height → (A * t.height + B) / t.height = A := by
    intro A B hBlt
    rw [Nat.mul_comm, Nat.mul_add_div hpos, Nat.div_eq_of_lt hBlt]
    omega
  have emod : ∀ A B : Nat, B < t.height → (A * t.height + B) % t.height = B := by
    intro A B hBlt
    rw [Nat.mul_comm, Nat.mul_add_mod, Nat.mod_eq_of_lt hBlt]
  have hq : (x - (t.x : Int)).toNat = (x' - (t.x : Int)).toNat := by
    rw [← ediv ((x - (t.x : Int)).toNat) ((y - (t.y : Int)).toNat) hB,
      ← ediv ((x' - (t.x : Int)).toNat) ((y' - (t.y : Int)).toNat) hB', heq]
  have hr : (y - (t.y : Int)).toNat = (y' - (t.y : Int)).toNat := by
    rw [← emod ((x - (t.x : Int)).toNat) ((y - (t.y : Int)).toNat) hB,
      ← emod ((x' - (t.x : Int)).toNat) ((y' - (t.y : Int)).toNat) hB', heq]
  constructor <;> omega

/-- An in-extent `set` succeeds and writes exactly the computed index. -/
theorem BooleanTileGrid.bool_set_of_inExtent (g : BooleanTileGrid) {x y : Int}
    (hin : inExtent g.toTileGrid x y) (v : Bool) :
    g.set x y v =
      .ok { g with data := g.data.set (natIndex g.toTileGrid x y) (if v then 1 else 0) } := by
  unfold set toIndex
  rw [if_pos hin]

/-- An in-extent `set` succeeds and writes exactly the computed index. -/
theorem NumericTileGrid.numeric_set_of_inExtent (g : NumericTileGrid) {x y : Int}
    (hin : inExtent g.toTileGrid x y) (v : JsNum) :
    g.set x y v =
      .ok { g with data := g.data.set (natIndex g.toTileGrid x y) v, minMax := none } := by
  unfold set toIndex
  rw [if_pos hin]

/-- An in-extent `set` succeeds and writes exactly the computed index. -/
theorem CategoricalTileGrid.cat_set_of_inExtent (g : CategoricalTileGrid) {x y : Int}
    (hin : inExtent g.toTileGrid x y) (v : Nat) :
    g.set x y v =
      .ok { g with data := g.data.set (natIndex g.toTileGrid x y) (v : Fin 256) } := by
  unfold set toIndex
  rw [if_pos hin]

/-- C7: for each variant, `set(x, y, v)` at an in-range coordinate (with
the constructed `width*height` buffer) succeeds and a `get(x, y)` at
native zoom on the result returns `v` (the categorical cell domain being
byte codes `v < 256`); at a coordinate outside the extent, `set` throws —
before touching the buffer, so no cell changes (in this pure model the
failing call returns no grid at all). -/
theorem set_get_roundtrip_and_bounds :
    (∀ (g : BooleanTileGrid) (x y : Int) (v : Bool),
      (inExtent g.toTileGrid x y → g.data.length = g.width * g.height →
        ∃ g', g.set x y v = .ok g' ∧ g'.get x y = .ok v) ∧
      (¬ inExtent g.toTileGrid x y → g.set x y v = .error "coordinate out of range")) ∧
    (∀ (g : NumericTileGrid) (x y : Int) (v : JsNum),
      (inExtent g.toTileGrid x y → g.data.length = g.width * g.height →
        ∃ g', g.set x y v = .ok g' ∧ g'.get x y = .ok v) ∧
      (¬ inExtent g.toTileGrid x y → g.set x y v = .error "coordinate out of range")) ∧
    (∀ (g : CategoricalTileGrid) (x y : Int) (v : Nat),
      (inExtent g.toTileGrid x y → g.data.length = g.width * g.height → v < 256 →
        ∃ g', g.set x y v = .ok g' ∧ g'.get x y = .ok v) ∧
      (¬ inExtent g.toTileGrid x y → g.set x y v = .error "coordinate out of range")) := by
  refine ⟨fun g x y v => ⟨fun hin hlen => ?_, fun hnin => ?_⟩,
    fun g x y v => ⟨fun hin hlen => ?_, fun hnin => ?_⟩,
    fun g x y v => ⟨fun hin hlen hv => ?_, fun hnin => ?_⟩⟩
  · refine ⟨_, g.bool_set_of_inExtent hin v, ?_⟩
    rw [BooleanTileGrid.bool_get_native]
    show (match toIndex g.toTileGrid x y with
          | none => Except.ok false
          | some i => Except.ok ((g.data.set (natIndex g.toTileGrid x y)
              (if v then 1 else 0)).getD i 0 == 1)) = Except.ok v
    unfold toIndex
    rw [if_pos hin]
    show Except.ok ((g.data.set (natIndex g.toTileGrid x y) (if v then 1 else 0)).getD
      (natIndex g.toTileGrid x y) 0 == 1) = Except.ok v
    rw [getD_set_self _ _ _ _ (hlen ▸ natIndex_lt _ hin)]
    cases v <;> rfl
  · unfold BooleanTileGrid.set toIndex
    rw [if_neg hnin]
  · refine ⟨_, g.numeric_set_of_inExtent hin v, ?_⟩
    rw [NumericTileGrid.numeric_get_native]
    show (match toIndex g.toTileGrid x y with
          | none => Except.ok (.fin 0)
          | some i => Except.ok ((g.data.set (natIndex g.toTileGrid x y) v).getD i (.fin 0))) =
        Except.ok v
    unfold toIndex
    rw [if_pos hin]
    show Except.ok ((g.data.set (natIndex g.toTileGrid x y) v).getD
      (natIndex g.toTileGrid x y) (.fin 0)) = Except.ok v
    rw [getD_set_self _ _ _ _ (hlen ▸ natIndex_lt _ hin)]
  · unfold NumericTileGrid.set toIndex
    rw [if_neg hnin]
  · refine ⟨_, g.cat_set_of_inExtent hin v, ?_⟩
    rw [CategoricalTileGrid.cat_get_native]
    show (match toIndex g.toTileGrid x y with
          | none => Except.ok 255
          | some i => Except.ok ((g.data.set (natIndex g.toTileGrid x y)
              (v : Fin 256)).getD i 255).val) = Except.ok v
    unfold toIndex
    rw [if_pos hin]
    show Except.ok ((g.data.set (natIndex g.toTileGrid x y) (v : Fin 256)).getD
      (natIndex g.toTileGrid x y) 255).val = Except.ok v
    rw [getD_set_self _ _ _ _ (hlen ▸ natIndex_lt _ hin)]
    simp [Fin.val_natCast, Nat.mod_eq_of_lt hv]
  · unfold CategoricalTileGrid.set toIndex
    rw [if_neg hnin]

/-- C7 witness: the round trip and the out-of-range rejection at concrete
grids of each variant. -/
theorem set_get_roundtrip_witness :
    (∃ g', BooleanTileGrid.set ⟨⟨2, 1, 0, 2, 2⟩, [0, 0, 0, 0]⟩ 2 1 true = .ok g' ∧
      g'.get 2 1 = .ok true) ∧
    BooleanTileGrid.set ⟨⟨2, 1, 0, 2, 2⟩, [0, 0, 0, 0]⟩ 0 0 true =
      .error "coordinate out of range" ∧
    (∃ g', NumericTileGrid.set ⟨⟨1, 0, 0, 2, 1⟩, [.fin 0, .fin 0], none⟩ 1 0 (.fin 7) = .ok g' ∧
      g'.get 1 0 = .ok (.fin 7)) ∧
    NumericTileGrid.set ⟨⟨1, 0, 0, 2, 1⟩, [.fin 0, .fin 0], none⟩ 2 0 (.fin 7) =
      .error "coordinate out of range" ∧
    (∃ g', CategoricalTileGrid.set ⟨⟨1, 0, 0, 1, 1⟩, [255], none, none⟩ 0 0 9 = .ok g' ∧
      g'.get 0 0 = .ok 9) ∧
    CategoricalTileGrid.set ⟨⟨1, 0, 0, 1, 1⟩, [255], none, none⟩ 1 0 9 =
      .error "coordinate out of range" := by
  exact ⟨(set_get_roundtrip_and_bounds.1 _ 2 1 true).1 (by decide) (by decide),
    (set_get_roundtrip_and_bounds.1 _ 0 0 true).2 (by decide),
    (set_get_roundtrip_and_bounds.2.1 _ 1 0 (.fin 7)).1 (by decide) (by decide),
    (set_get_roundtrip_and_bounds.2.1 _ 2 0 (.fin 7)).2 (by decide),
    (set_get_roundtrip_and_bounds.2.2 _ 0 0 9).1 (by decide) (by decide) (by decide),
    (set_get_roundtrip_and_bounds.2.2 _ 1 0 9).2 (by decide)⟩

/- ## Claim C6 -/

/-- The finite values among a buffer's cells, in buffer order. -/
def finiteParts (data : List JsNum) : List ℚ :=
  data.filterMap fun v => match v with | .fin q => some q | _ => none

/-- The min/max fold acts independently on the two components. -/
theorem foldl_minmax_split : ∀ (data : List JsNum) (mm : JsNum × JsNum),
    data.foldl (fun mm v => if v.isFinite then (jsMin v mm.1, jsMax v mm.2) else mm) mm =
    (data.foldl (fun m v => if v.isFinite then jsMin v m else m) mm.1,
     data.foldl (fun m v => if v.isFinite then jsMax v m else m) mm.2) := by
  intro data
  induction data with
  | nil => intro mm; rfl
  | cons v rest ih =>
    intro mm
    simp only [List.foldl_cons]
    rw [ih]
    have hacc1 : (if v.isFinite then (jsMin v mm.1, jsMax v mm.2) else mm).1 =
        (if v.isFinite then jsMin v mm.1 else mm.1) := by split <;> rfl
    have hacc2 : (if v.isFinite then (jsMin v mm.1, jsMax v mm.2) else mm).2 =
        (if v.isFinite then jsMax v mm.2 else mm.2) := by split <;> rfl
    rw [hacc1, hacc2]

/-- Once the running minimum is a finite value, the fold computes the
minimum of it and all further finite cells. -/
theorem foldl_min_fin_acc : ∀ (data : List JsNum) (a : ℚ),
    data.foldl (fun m v => if v.isFinite then jsMin v m else m) (.fin a) =
      .fin ((finiteParts data).foldl min a) := by
  intro data
  induction data with
  | nil => intro a; rfl
  | cons v rest ih =>
    intro a
    cases v with
    | fin q =>
      show rest.foldl (fun m v => if v.isFinite then jsMin v m else m) (.fin (min q a)) =
        .fin ((finiteParts rest).foldl min (min a q))
      rw [ih (min q a), min_comm a q]
    | nan => exact ih a
    | inf => exact ih a
    | negInf => exact ih a

/-- Once the running maximum is a finite value, the fold computes the
maximum of it and all further finite cells. -/
theorem foldl_max_fin_acc : ∀ (data : List JsNum) (a : ℚ),
    data.foldl (fun m v => if v.isFinite then jsMax v m else m) (.fin a) =
      .fin ((finiteParts data).foldl max a) := by
  intro data
  induction data with
  | nil => intro a; rfl
  | cons v rest ih =>
    intro a
    cases v with
    | fin q =>
      show rest.foldl (fun m v => if v.isFinite then jsMax v m else m) (.fin (max q a)) =
        .fin ((finiteParts rest).foldl max (max a q))
      rw [ih (max q a), max_comm a q]
    | nan => exact ih a
    | inf => exact ih a
    | negInf => exact ih a

/-- The minimum fold from `Infinity` over the finite cells. -/
theorem foldl_min_from_inf : ∀ data : List JsNum,
    data.foldl (fun m v => if v.isFinite then jsMin v m else m) .inf =
      (match finiteParts data with
       | [] => JsNum.inf
       | q :: qs => .fin (qs.foldl min q)) := by
  intro data
  induction data with
  | nil => rfl
  | cons v rest ih =>
    cases v with
    | fin q =>
      show rest.foldl (fun m v => if v.isFinite then jsMin v m else m) (.fin q) =
        .fin ((finiteParts rest).foldl min q)
      exact foldl_min_fin_acc rest q
    | nan => exact ih
    | inf => exact ih
    | negInf => exact ih

/-- The maximum fold from `-Infinity` over the finite cells. -/
theorem foldl_max_from_negInf : ∀ data : List JsNum,
    data.foldl (fun m v => if v.isFinite then jsMax v m else m) .negInf =
      (match finiteParts data with
       | [] => JsNum.negInf
       | q :: qs => .fin (qs.foldl max q)) := by
  intro data
  induction data with
  | nil => rfl
  | cons v rest ih =>
    cases v with
    | fin q =>
      show rest.foldl (fun m v => if v.isFinite then jsMax v m else m) (.fin q) =
        .fin ((finiteParts rest).foldl max q)
      exact foldl_max_fin_acc rest q
    | nan => exact ih
    | inf => exact ih
    | negInf => exact ih

/-- A `min`-fold is a lower bound of its seed and of every element. -/
theorem foldl_min_le : ∀ (l : List ℚ) (a : ℚ),
    l.foldl min a ≤ a ∧ ∀ w ∈ l, l.foldl min a ≤ w := by
  intro l
  induction l with
  | nil => intro a; exact ⟨le_refl a, by simp⟩
  | cons q qs ih =>
    intro a
    have h := ih (min a q)
    refine ⟨h.1.trans (min_le_left a q), ?_⟩
    intro w hw
    rcases List.mem_cons.1 hw with rfl | hw'
    · exact h.1.trans (min_le_right a w)
    · exact h.2 w hw'

/-- A `max`-fold is an upper bound of its seed and of every element. -/
theorem le_foldl_max : ∀ (l : List ℚ) (a : ℚ),
    a ≤ l.foldl max a ∧ ∀ w ∈ l, w ≤ l.foldl max a := by
  intro l
  induction l with
  | nil => intro a; exact ⟨le_refl a, by simp⟩
  | cons q qs ih =>
    intro a
    have h := ih (max a q)
    refine ⟨(le_max_left a q).trans h.1, ?_⟩
    intro w hw
    rcases List.mem_cons.1 hw with rfl | hw'
    · exact (le_max_right a w).trans h.1
    · exact h.2 w hw'

/-- A `min`-fold returns its seed or one of the elements. -/
theorem foldl_min_mem : ∀ (l : List ℚ) (a : ℚ), l.foldl min a = a ∨ l.foldl min a ∈ l := by
  intro l
  induction l with
  | nil => intro a; exact Or.inl rfl
  | cons q qs ih =>
    intro a
    rcases ih (min a q) with h | h
    · rcases min_choice a q with hm | hm
      · left; rw [List.foldl_cons, h, hm]
      · right; rw [List.foldl_cons, h, hm]; exact List.mem_cons_self q qs
    · right; exact List.mem_cons_of_mem q h

/-- A `max`-fold returns its seed or one of the elements. -/
theorem foldl_max_mem : ∀ (l : List ℚ) (a : ℚ), l.foldl max a = a ∨ l.foldl max a ∈ l := by
  intro l
  induction l with
  | nil => intro a; exact Or.inl rfl
  | cons q qs ih =>
    intro a
    rcases ih (max a q) with h | h
    · rcases max_choice a q with hm | hm
      · left; rw [List.foldl_cons, h, hm]
      · right; rw [List.foldl_cons, h, hm]; exact List.mem_cons_self q qs
    · right; exact List.mem_cons_of_mem q h

/-- `mm` is exactly the min/max pair over the finite cells of `data`:
whenever at least one finite cell exists, both components are finite
values attained by some cell, bounding every finite cell from below and
above. -/
def minMaxCorrect (mm : JsNum × JsNum) (data : List JsNum) : Prop :=
  ∀ q qs, finiteParts data = q :: qs →
    ∃ a b : ℚ, mm = (.fin a, .fin b) ∧
      a ∈ finiteParts data ∧ b ∈ finiteParts data ∧
      ∀ w ∈ finiteParts data, a ≤ w ∧ w ≤ b

/-- The fold inside `getMinMax` computes exactly the min/max over the
finite cells. -/
theorem computeMinMax_correct (data : List JsNum) :
    minMaxCorrect (computeMinMax data) data := by
  intro q qs hfp
  have hmin := foldl_min_from_inf data
  have hmax := foldl_max_from_negInf data
  rw [hfp] at hmin hmax
  have hsplit : computeMinMax data = (.fin (qs.foldl min q), .fin (qs.foldl max q)) := by
    unfold computeMinMax
    rw [foldl_minmax_split data (.inf, .negInf)]
    rw [show ((JsNum.inf, JsNum.negInf) : JsNum × JsNum).1 = JsNum.inf from rfl,
      show ((JsNum.inf, JsNum.negInf) : JsNum × JsNum).2 = JsNum.negInf from rfl,
      hmin, hmax]
  refine ⟨qs.foldl min q, qs.foldl max q, hsplit, ?_, ?_, ?_⟩
  · rw [hfp]
    rcases foldl_min_mem qs q with h | h
    · rw [h]; exact List.mem_cons_self q qs
    · exact List.mem_cons_of_mem q h
  · rw [hfp]
    rcases foldl_max_mem qs q with h | h
    · rw [h]; exact List.mem_cons_self q qs
    · exact List.mem_cons_of_mem q h
  · intro w hw
    rw [hfp] at hw
    rcases List.mem_cons.1 hw with rfl | hw'
    · exact ⟨(foldl_min_le qs w).1, (le_foldl_max qs w).1⟩
    · exact ⟨(foldl_min_le qs q).2 w hw', (le_foldl_max qs q).2 w hw'⟩

/-- C6: on a numeric grid whose cache is empty or correct (the only
states the operations produce), `getMinMax()` is exactly the min/max over
the cells holding finite values; and any in-range `set(x, y, v)` stores
`v` (finite or not) and leaves the next `getMinMax()` recomputed from the
updated buffer — never a stale cache. -/
theorem numeric_getMinMax_finite_cells (g : NumericTileGrid)
    (hc : g.minMax = none ∨ g.minMax = some (computeMinMax g.data)) :
    minMaxCorrect g.getMinMax g.data ∧
    (∀ (x y : Int) (v : JsNum) (g' : NumericTileGrid), g.set x y v = .ok g' →
      g'.data = g.data.set (natIndex g.toTileGrid x y) v ∧
      g'.getMinMax = computeMinMax g'.data ∧
      minMaxCorrect g'.getMinMax g'.data) := by
  constructor
  · have hg : g.getMinMax = computeMinMax g.data := by
      unfold NumericTileGrid.getMinMax
      rcases hc with h | h <;> rw [h]
    rw [hg]
    exact computeMinMax_correct g.data
  · intro x y v g' hset
    unfold NumericTileGrid.set toIndex at hset
    by_cases hin : inExtent g.toTileGrid x y
    · rw [if_pos hin] at hset
      cases hset
      refine ⟨rfl, rfl, ?_⟩
      exact computeMinMax_correct _
    · rw [if_neg hin] at hset
      cases hset

/-- C6 witness: the min/max characterization at a concrete grid holding
`[3, NaN]` with an empty cache, and after `set(0,0,5)` on it. -/
theorem numeric_getMinMax_witness :
    minMaxCorrect (NumericTileGrid.getMinMax ⟨⟨1, 0, 0, 2, 1⟩, [.fin 3, .nan], none⟩)
      [.fin 3, .nan] ∧
    (⟨⟨1, 0, 0, 2, 1⟩, [.fin 5, .nan], none⟩ : NumericTileGrid).data =
      List.set [.fin 3, .nan] (natIndex ⟨1, 0, 0, 2, 1⟩ 0 0) (.fin 5) ∧
    NumericTileGrid.getMinMax ⟨⟨1, 0, 0, 2, 1⟩, [.fin 5, .nan], none⟩ =
      computeMinMax [.fin 5, .nan] ∧
    minMaxCorrect (NumericTileGrid.getMinMax ⟨⟨1, 0, 0, 2, 1⟩, [.fin 5, .nan], none⟩)
      [.fin 5, .nan] := by
  have h := numeric_getMinMax_finite_cells ⟨⟨1, 0, 0, 2, 1⟩, [.fin 3, .nan], none⟩ (Or.inl rfl)
  have h2 := h.2 0 0 (.fin 5) ⟨⟨1, 0, 0, 2, 1⟩, [.fin 5, .nan], none⟩ (by decide)
  exact ⟨h.1, h2.1, h2.2.1, h2.2.2⟩

/- ## Claim C8 -/

/-- The nested loops visit exactly the grid's own extent. -/
theorem mem_extentCoords (t : TileGrid) (x y : Int) :
    (x, y) ∈ CategoricalTileGrid.extentCoords t ↔ inExtent t x y := by
  unfold CategoricalTileGrid.extentCoords inExtent
  simp only [List.mem_flatMap, List.mem_map, List.mem_range, Prod.mk.injEq]
  constructor
  · rintro ⟨di, hdi, dj, hdj, hx, hy⟩
    push_cast at hx hy
    refine ⟨?_, ?_, ?_, ?_⟩ <;> omega
  · rintro ⟨h1, h2, h3, h4⟩
    refine ⟨(x - t.x).toNat, by omega, (y - t.y).toNat, by omega, ?_, ?_⟩ <;>
      (push_cast; omega)

/-- The loop body, written as a conditional overwrite of the visited
cell. -/
theorem applyStep_eq (bg : BooleanTileGrid) (key : Nat) (c : CategoricalTileGrid)
    (p : Int × Int) (hp : inExtent c.toTileGrid p.1 p.2) :
    CategoricalTileGrid.applyStep bg key c p =
      if bg.get p.1 p.2 bg.zoom = .ok true
      then { c with data := c.data.set (natIndex c.toTileGrid p.1 p.2) (key : Fin 256) }
      else c := by
  unfold CategoricalTileGrid.applyStep
  by_cases h : bg.get p.1 p.2 bg.zoom = .ok true
  · rw [h, if_pos rfl, c.cat_set_of_inExtent hp key]
  · rw [if_neg h]
    rcases hbg : bg.get p.1 p.2 bg.zoom with e | b
    · rfl
    · cases b
      · rfl
      · exact absurd hbg h

/-- Folding the loop body over a list of in-extent coordinates keeps the
geometry, labels, cache and buffer length, and rewrites exactly the
visited cells at which the boolean grid reads `true`. -/
theorem apply_foldl_cells (bg : BooleanTileGrid) (key : Nat) :
    ∀ (l : List (Int × Int)) (c : CategoricalTileGrid),
      (∀ p ∈ l, inExtent c.toTileGrid p.1 p.2) →
      c.data.length = c.width * c.height →
      (l.foldl (CategoricalTileGrid.applyStep bg key) c).toTileGrid = c.toTileGrid ∧
      (l.foldl (CategoricalTileGrid.applyStep bg key) c).labels = c.labels ∧
      (l.foldl (CategoricalTileGrid.applyStep bg key) c).data.length = c.width * c.height ∧
      (∀ x y : Int, inExtent c.toTileGrid x y →
        (l.foldl (CategoricalTileGrid.applyStep bg key) c).data.getD
            (natIndex c.toTileGrid x y) 255 =
          if (x, y) ∈ l ∧ bg.get x y bg.zoom = .ok true then (key : Fin 256)
          else c.data.getD (natIndex c.toTileGrid x y) 255) := by
  intro l
  induction l with
  | nil =>
    intro c _ hlen
    refine ⟨rfl, rfl, hlen, fun x y _ => ?_⟩
    simp
  | cons p ps ih =>
    intro c hmem hlen
    have hp : inExtent c.toTileGrid p.1 p.2 := hmem p (List.mem_cons_self p ps)
    simp only [List.foldl_cons]
    rw [applyStep_eq bg key c p hp]
    by_cases hbg : bg.get p.1 p.2 bg.zoom = .ok true
    · rw [if_pos hbg]
      have hlen₁ : (c.data.set (natIndex c.toTileGrid p.1 p.2) (key : Fin 256)).length = c.width * c.height := by
        simpa [List.length_set] using hlen
      have ihres := ih { c with data := c.data.set (natIndex c.toTileGrid p.1 p.2) (key : Fin 256) } (fun p' hp' => hmem p' (List.mem_cons_of_mem p hp')) hlen₁
      refine ⟨ihres.1, ihres.2.1, ihres.2.2.1, ?_⟩
      intro x y hxy
      rw [ihres.2.2.2 x y hxy]
      by_cases hbgxy : bg.get x y bg.zoom = .ok true
      · by_cases hm : (x, y) ∈ ps
        · simp [hm, hbgxy, List.mem_cons]
        · by_cases hep : (x, y) = p
          · subst hep
            rw [if_neg (by simp [hm]), if_pos (by simp [List.mem_cons, hbgxy])]
            exact getD_set_self _ _ _ _ (hlen ▸ natIndex_lt _ hp)
          · have hne : natIndex c.toTileGrid x y ≠ natIndex c.toTileGrid p.1 p.2 := by
              intro he
              obtain ⟨hx, hy⟩ := natIndex_inj c.toTileGrid hxy hp he
              exact hep (by rw [hx, hy])
            rw [if_neg (by simp [hm]), if_neg (by simp [List.mem_cons, hm, hep])]
            exact getD_set_ne _ (fun he => hne he.symm) _ _
      · have hnep : ¬((x, y) = p) := by
          intro he
          have hpe := hbg
          rw [← he] at hpe
          exact hbgxy hpe
        have hne : natIndex c.toTileGrid x y ≠ natIndex c.toTileGrid p.1 p.2 := by
          intro he
          obtain ⟨hx, hy⟩ := natIndex_inj c.toTileGrid hxy hp he
          exact hnep (by rw [hx, hy])
        rw [if_neg (by simp [hbgxy]), if_neg (by simp [hbgxy])]
        exact getD_set_ne _ (fun he => hne he.symm) _ _
    · rw [if_neg hbg]
      have ihres := ih c (fun p' hp' => hmem p' (List.mem_cons_of_mem p hp')) hlen
      refine ⟨ihres.1, ihres.2.1, ihres.2.2.1, ?_⟩
      intro x y hxy
      rw [ihres.2.2.2 x y hxy]
      by_cases hbgxy : bg.get x y bg.zoom = .ok true
      · have hnep : ¬((x, y) = p) := by
          intro he
          apply hbg
          rw [← he]
          exact hbgxy
        simp [hbgxy, List.mem_cons, hnep]
      · simp [hbgxy]

/-- C8: `applyCategoryFromBooleanGrid(boolGrid, key)` (with a category
byte code `key` and the constructed `width*height` buffer) keeps the
geometry and labels, and for every cell of the categorical grid's own
extent: where `boolGrid` reads `true` the cell now reads `key`, and where
it reads `false` (or out of the boolean grid's own range) the cell is
unchanged. -/
theorem applyCategory_paints_true_cells (g : CategoricalTileGrid) (bg : BooleanTileGrid)
    (key : Nat) (hlen : g.data.length = g.width * g.height) (hkey : key < 256) :
    (g.applyCategoryFromBooleanGrid bg key).toTileGrid = g.toTileGrid ∧
    (g.applyCategoryFromBooleanGrid bg key).labels = g.labels ∧
    ∀ x y : Int, inExtent g.toTileGrid x y →
      (g.applyCategoryFromBooleanGrid bg key).get x y =
        .ok (if bg.get x y bg.zoom = .ok true then key
             else (g.data.getD (natIndex g.toTileGrid x y) 255).val) := by
  unfold CategoricalTileGrid.applyCategoryFromBooleanGrid
  have H := apply_foldl_cells bg key (CategoricalTileGrid.extentCoords g.toTileGrid) g
    (fun p hp => (mem_extentCoords g.toTileGrid p.1 p.2).1 hp) hlen
  refine ⟨H.1, H.2.1, ?_⟩
  intro x y hxy
  rw [CategoricalTileGrid.cat_get_native]
  unfold toIndex
  rw [H.1, if_pos hxy]
  show Except.ok (((CategoricalTileGrid.extentCoords g.toTileGrid).foldl
      (CategoricalTileGrid.applyStep bg key) g).data.getD (natIndex g.toTileGrid x y) 255).val =
    Except.ok (if bg.get x y bg.zoom = .ok true then key
      else (g.data.getD (natIndex g.toTileGrid x y) 255).val)
  rw [H.2.2.2 x y hxy]
  by_cases hbg : bg.get x y bg.zoom = .ok true
  · rw [if_pos ⟨(mem_extentCoords g.toTileGrid x y).2 hxy, hbg⟩, if_pos hbg]
    simp [Fin.val_natCast, Nat.mod_eq_of_lt hkey]
  · rw [if_neg (fun hc => hbg hc.2), if_neg hbg]

/-- C8 witness: painting a concrete 2×2 categorical grid from a boolean
grid that is `true` only at `(1,1)` with code 2: cell `(1,1)` now reads
2, cell `(0,0)` is unchanged (255), geometry and labels survive. -/
theorem applyCategory_paints_witness :
    (CategoricalTileGrid.applyCategoryFromBooleanGrid
      ⟨⟨2, 0, 0, 2, 2⟩, [255, 255, 255, 255], some (0, 1), some [(2, "x")]⟩
      ⟨⟨2, 0, 0, 2, 2⟩, [0, 0, 0, 1]⟩ 2).toTileGrid = ⟨2, 0, 0, 2, 2⟩ ∧
    (CategoricalTileGrid.applyCategoryFromBooleanGrid
      ⟨⟨2, 0, 0, 2, 2⟩, [255, 255, 255, 255], some (0, 1), some [(2, "x")]⟩
      ⟨⟨2, 0, 0, 2, 2⟩, [0, 0, 0, 1]⟩ 2).labels = some [(2, "x")] ∧
    (CategoricalTileGrid.applyCategoryFromBooleanGrid
      ⟨⟨2, 0, 0, 2, 2⟩, [255, 255, 255, 255], some (0, 1), some [(2, "x")]⟩
      ⟨⟨2, 0, 0, 2, 2⟩, [0, 0, 0, 1]⟩ 2).get 1 1 = .ok 2 ∧
    (CategoricalTileGrid.applyCategoryFromBooleanGrid
      ⟨⟨2, 0, 0, 2, 2⟩, [255, 255, 255, 255], some (0, 1), some [(2, "x")]⟩
      ⟨⟨2, 0, 0, 2, 2⟩, [0, 0, 0, 1]⟩ 2).get 0 0 = .ok 255 := by
  have H := applyCategory_paints_true_cells
    ⟨⟨2, 0, 0, 2, 2⟩, [255, 255, 255, 255], some (0, 1), some [(2, "x")]⟩
    ⟨⟨2, 0, 0, 2, 2⟩, [0, 0, 0, 1]⟩ 2 (by decide) (by decide)
  exact ⟨H.1, H.2.1, (H.2.2 1 1 (by decide)).trans (by decide),
    (H.2.2 0 0 (by decide)).trans (by decide)⟩

end Landscapes
